import Mathlib

/-!
Verification development for the repository AWS_learning, whose single source
file is the notebook `learning-projects/automl-sagemaker/2. Pipelines.ipynb`.
The notebook builds declarative SageMaker Pipelines configuration objects
(parameters, steps, a greater-or-equal condition gate, a pipeline aggregate)
and then performs a straight-line sequence of client calls (data upload,
pipeline upsert, execution start/describe/wait/list_steps).  The definitions
below are a shallow embedding of those configuration objects and of that call
sequence, translated cell by cell from the notebook.  The notebook's runtime
values that come from the AWS account (the S3 bucket name, the IAM role ARN)
are free `String` arguments.
-/

namespace ChurnPipeline

/-- Notebook cell 6: the S3 key root used for the demo data
(the notebook variable holding "sagemaker/DEMO-pipelines-churn"). -/
def churn_key_root : String := "sagemaker/DEMO-pipelines-churn"

/-- Notebook cell 8: the key of the staged raw data object. -/
def raw_data_key : String := churn_key_root ++ "/data/RawData.csv"

/-- Notebook cell 8: the S3 URI of the staged raw data, for a given bucket. -/
def raw_data_s3uri (bucket : String) : String :=
  "s3://" ++ bucket ++ "/" ++ raw_data_key

/-- Notebook cell 6: base job naming root "CustomerChurn". -/
def base_job_root : String := "CustomerChurn"

/-- Notebook cell 6. -/
def model_package_group_name : String := "ChurnModelPackageGroup-v1"

/-- Notebook cell 6. -/
def pipeline_name : String := "ChurnPipeline-v1"

/-- Notebook cell 12: the training output path. -/
def model_path (bucket : String) : String :=
  "s3://" ++ bucket ++ "/" ++ base_job_root ++ "/CustomerChurnTrain"

/-- The two pipeline-parameter types used by the notebook
(ParameterInteger and ParameterString). -/
inductive ParamType where
  | integer
  | string
deriving DecidableEq

/-- The two step-property access paths the notebook dereferences:
a processing output URI, or a training job's model artifacts URI. -/
inductive PropPath where
  | processingOutput (output_name : String)
  | modelArtifacts
deriving DecidableEq

/-- A value position in the configuration objects: a string literal, an
integer literal, a numeric literal, a reference to a pipeline parameter, or a
reference to a property of another step. -/
inductive SVal where
  | str (s : String)
  | int (n : Int)
  | num (q : ℚ)
  | param (name : String)
  | prop (step : String) (path : PropPath)
deriving DecidableEq

/-- A pipeline parameter: name, type, default value
(ParameterInteger / ParameterString in the notebook). -/
structure Parameter where
  name : String
  type : ParamType
  default_value : SVal
deriving DecidableEq

/-- CacheConfig of a pipeline step. -/
structure CacheConfig where
  enable_caching : Bool
  expire_after : String
deriving DecidableEq

/-- ProcessingInput of a processing step. -/
structure ProcessingInput where
  input_name : Option String
  source : SVal
  destination : String
deriving DecidableEq

/-- ProcessingOutput of a processing step. -/
structure ProcessingOutput where
  output_name : String
  source : String
deriving DecidableEq

/-- TrainingInput of a training step channel. -/
structure TrainingInput where
  s3_data : SVal
  content_type : String
deriving DecidableEq

/-- PropertyFile declared on a processing step. -/
structure PropertyFile where
  name : String
  output_name : String
  path : String
deriving DecidableEq

/-- JsonGet: reads a value at a JSON path from a named property file of a
named step. -/
structure JsonGet where
  step_name : String
  property_file : String
  json_path : String
deriving DecidableEq

/-- The only condition class the notebook uses:
ConditionGreaterThanOrEqualTo with a JsonGet left operand and a numeric
right operand.  It is inert configuration data; the comparison itself is
evaluated by the remote service, not by any function of this development. -/
inductive Condition where
  | greaterThanOrEqualTo (left : JsonGet) (right : ℚ)
deriving DecidableEq

/-- The pipeline steps the notebook constructs.  Field layout follows the
constructor calls in the notebook: ProcessingStep, TrainingStep (with its
estimator's instance type, output path and hyperparameters), RegisterModel,
and ConditionStep. -/
inductive Step where
  | processing (name : String) (instance_type instance_count : SVal)
      (inputs : List ProcessingInput) (outputs : List ProcessingOutput)
      (code : String) (cache_config : Option CacheConfig)
      (property_files : List PropertyFile)
  | training (name : String) (instance_type : SVal) (output_path : String)
      (hyperparameters : List (String × SVal))
      (inputs : List (String × TrainingInput)) (cache_config : Option CacheConfig)
  | registerModel (name : String) (model_data : SVal)
      (content_types response_types inference_instances transform_instances : List String)
      (model_package_group : String) (approval_status : SVal)
  | condition (name : String) (conditions : List Condition)
      (if_steps else_steps : List Step)

/-- The name of a step. -/
def Step.name : Step → String
  | .processing n _ _ _ _ _ _ _ => n
  | .training n _ _ _ _ _ => n
  | .registerModel n _ _ _ _ _ _ _ => n
  | .condition n _ _ _ => n

/-- The cache configuration carried by a step, when any. -/
def Step.cache_config : Step → Option CacheConfig
  | .processing _ _ _ _ _ _ c _ => c
  | .training _ _ _ _ _ c => c
  | _ => none

/-- The conditions of a condition step (empty for other steps). -/
def Step.conditions : Step → List Condition
  | .condition _ cs _ _ => cs
  | _ => []

/-- The if-branch steps of a condition step. -/
def Step.if_steps : Step → List Step
  | .condition _ _ ifs _ => ifs
  | _ => []

/-- The else-branch steps of a condition step. -/
def Step.else_steps : Step → List Step
  | .condition _ _ _ els => els
  | _ => []

/-- The approval status value of a register-model step. -/
def Step.approval_status : Step → Option SVal
  | .registerModel _ _ _ _ _ _ _ a => some a
  | _ => none

/-- The inputs of a processing step. -/
def Step.processingInputs : Step → List ProcessingInput
  | .processing _ _ _ ins _ _ _ _ => ins
  | _ => []

/-- The named input channels of a training step. -/
def Step.trainingInputs : Step → List (String × TrainingInput)
  | .training _ _ _ _ ins _ => ins
  | _ => []

/-- The step names a value references (through step-property access). -/
def SVal.stepRefs : SVal → List String
  | .prop s _ => [s]
  | _ => []

/-- The step names a condition references (through JsonGet). -/
def Condition.stepRefs : Condition → List String
  | .greaterThanOrEqualTo l _ => [l.step_name]

/-- Left operand of the greater-or-equal condition. -/
def Condition.left : Condition → JsonGet
  | .greaterThanOrEqualTo l _ => l

/-- Right operand of the greater-or-equal condition. -/
def Condition.right : Condition → ℚ
  | .greaterThanOrEqualTo _ r => r

/-- The data dependencies of a step: the names of the steps whose runtime
properties its configuration references. -/
def Step.deps : Step → List String
  | .processing _ _ _ ins _ _ _ _ => (ins.map (fun i => i.source.stepRefs)).flatten
  | .training _ _ _ hps ins _ =>
      (hps.map (fun h => h.2.stepRefs)).flatten ++
        (ins.map (fun i => i.2.s3_data.stepRefs)).flatten
  | .registerModel _ md _ _ _ _ _ _ => md.stepRefs
  | .condition _ cs _ _ => (cs.map Condition.stepRefs).flatten

/-- Notebook cell 10: ProcessingInstanceCount, ParameterInteger, default 1. -/
def processing_instance_count : Parameter :=
  ⟨"ProcessingInstanceCount", ParamType.integer, SVal.int 1⟩

/-- Notebook cell 10: ProcessingInstanceType, ParameterString,
default "ml.m5.xlarge". -/
def processing_instance_type : Parameter :=
  ⟨"ProcessingInstanceType", ParamType.string, SVal.str ("ml.m5.xlarge")⟩

/-- Notebook cell 10: InputDataUrl, ParameterString, default the staged raw
data URI. -/
def input_data (bucket : String) : Parameter :=
  ⟨"InputDataUrl", ParamType.string, SVal.str (raw_data_s3uri bucket)⟩

/-- Notebook cell 12: TrainingInstanceType, ParameterString,
default "ml.m5.xlarge". -/
def training_instance_type : Parameter :=
  ⟨"TrainingInstanceType", ParamType.string, SVal.str ("ml.m5.xlarge")⟩

/-- Notebook cell 12: TrainingMaxDepth, ParameterString, default "5". -/
def training_max_depth : Parameter :=
  ⟨"TrainingMaxDepth", ParamType.string, SVal.str ("5")⟩

/-- Notebook cell 16: ModelApprovalStatus, ParameterString,
default "PendingManualApproval". -/
def model_approval_status : Parameter :=
  ⟨"ModelApprovalStatus", ParamType.string, SVal.str ("PendingManualApproval")⟩

/-- Notebook cell 10: the CustomerChurnProcess ProcessingStep, with its
raw-data input bound to the InputDataUrl parameter, three named outputs,
the preprocess.py code, and a CacheConfig enabling caching for "T2H". -/
def step_process : Step :=
  Step.processing ("CustomerChurnProcess")
    (SVal.param ("ProcessingInstanceType")) (SVal.param ("ProcessingInstanceCount"))
    [⟨some ("raw"), SVal.param ("InputDataUrl"), "/opt/ml/processing/input/raw"⟩]
    [⟨"train", "/opt/ml/processing/train"⟩,
     ⟨"validation", "/opt/ml/processing/validation"⟩,
     ⟨"test", "/opt/ml/processing/test"⟩]
    ("./preprocess.py")
    (some ⟨true, "T2H"⟩)
    []

/-- Notebook cell 12: the CustomerChurnTrain TrainingStep.  Its estimator
uses the TrainingInstanceType parameter and the model output path; its
hyperparameters include max_depth bound to the TrainingMaxDepth parameter;
its train and validation channels reference the processing step's outputs
of the same names. -/
def step_train (bucket : String) : Step :=
  Step.training ("CustomerChurnTrain")
    (SVal.param ("TrainingInstanceType")) (model_path bucket)
    [(("objective"), SVal.str ("binary:logistic")),
     (("num_round"), SVal.int 50),
     (("max_depth"), SVal.param ("TrainingMaxDepth")),
     (("eta"), SVal.num (0.2 : ℚ)),
     (("gamma"), SVal.int 4),
     (("min_child_weight"), SVal.int 6),
     (("subsample"), SVal.num (0.7 : ℚ))]
    [(("train"),
      ⟨SVal.prop ("CustomerChurnProcess") (PropPath.processingOutput ("train")),
       "text/csv"⟩),
     (("validation"),
      ⟨SVal.prop ("CustomerChurnProcess") (PropPath.processingOutput ("validation")),
       "text/csv"⟩)]
    none

/-- Notebook cell 14: the EvaluationReport property file. -/
def evaluation_report : PropertyFile :=
  ⟨"EvaluationReport", "evaluation", "evaluation.json"⟩

/-- Notebook cell 14: the CustomerChurnEval ProcessingStep.  Its inputs
reference the training step's model artifacts and the processing step's
test output; it declares the EvaluationReport property file. -/
def step_eval : Step :=
  Step.processing ("CustomerChurnEval")
    (SVal.param ("ProcessingInstanceType")) (SVal.int 1)
    [⟨none, SVal.prop ("CustomerChurnTrain") PropPath.modelArtifacts,
      "/opt/ml/processing/model"⟩,
     ⟨none, SVal.prop ("CustomerChurnProcess") (PropPath.processingOutput ("test")),
      "/opt/ml/processing/test"⟩]
    [⟨"evaluation", "/opt/ml/processing/evaluation"⟩]
    ("./evaluate.py")
    none
    [evaluation_report]

/-- Notebook cell 16: the CustomerChurnRegisterModel RegisterModel step,
with approval status bound to the ModelApprovalStatus parameter. -/
def step_register : Step :=
  Step.registerModel ("CustomerChurnRegisterModel")
    (SVal.prop ("CustomerChurnTrain") PropPath.modelArtifacts)
    ["text/csv"] ["text/csv"]
    ["ml.t2.medium", "ml.m5.large"] ["ml.m5.large"]
    model_package_group_name
    (SVal.param ("ModelApprovalStatus"))

/-- Notebook cell 16: the ConditionGreaterThanOrEqualTo gate.  Left operand:
JsonGet at path binary_classification_metrics.f1.value from the
EvaluationReport property file of the CustomerChurnEval step.  Right
operand: the constant 0.8. -/
def cond_register : Condition :=
  Condition.greaterThanOrEqualTo
    ⟨"CustomerChurnEval", "EvaluationReport",
     "binary_classification_metrics.f1.value"⟩
    (0.8 : ℚ)

/-- Notebook cell 16: the CustomerChurnAccuracyCond ConditionStep, with the
single gate condition, the register step as the only if-branch step, and an
empty else branch. -/
def step_cond : Step :=
  Step.condition ("CustomerChurnAccuracyCond") [cond_register] [step_register] []

/-- The pipeline aggregate (notebook cell 18): name, parameters, steps. -/
structure Pipeline where
  name : String
  parameters : List Parameter
  steps : List Step

/-- Notebook cell 18: the ChurnPipeline-v1 Pipeline object, aggregating the
six parameters (in the notebook's listing order) and the four steps. -/
def pipeline (bucket : String) : Pipeline :=
  ⟨pipeline_name,
   [processing_instance_type, processing_instance_count, training_max_depth,
    training_instance_type, model_approval_status, input_data bucket],
   [step_process, step_train bucket, step_eval, step_cond]⟩

/-- Modelled from the spec: the remote service's resolution of a pipeline
parameter for one execution is not code of this repository; the spec says
executions may be started "with optional parameter overrides" whose names
override the declared defaults.  A parameter named in the override
dictionary takes the override value; a parameter not named keeps its
declared default; a name that is not a pipeline parameter resolves to
nothing. -/
def resolveParam (p : Pipeline) (overrides : List (String × SVal))
    (n : String) : Option SVal :=
  match p.parameters.find? (fun q => q.name == n) with
  | none => none
  | some q =>
    match overrides.lookup n with
    | some v => some v
    | none => some q.default_value

/-- Notebook cell 30: the override dictionary of the second demonstrated
execution. -/
def demo_overrides : List (String × SVal) :=
  [(("ProcessingInstanceType"), SVal.str ("ml.c5.xlarge")),
   (("ModelApprovalStatus"), SVal.str ("Approved")),
   (("TrainingMaxDepth"), SVal.str ("6"))]

/-- The client-library calls the notebook performs, in the order of its code
cells: upload of the raw data to S3 (cell 8), pipeline upsert (cell 20),
execution start (cells 22 and 30), describe (cell 24), wait (cells 26 and
31), list_steps (cell 28). -/
inductive Op where
  | s3_upload (bucket : String) (key : String)
  | upsert (role_arn : String)
  | start (overrides : List (String × SVal))
  | describe
  | wait
  | list_steps
deriving DecidableEq

/-- The notebook's straight-line sequence of client calls, in cell order. -/
def script (bucket role_arn : String) : List Op :=
  [Op.s3_upload bucket raw_data_key,
   Op.upsert role_arn,
   Op.start [],
   Op.describe,
   Op.wait,
   Op.list_steps,
   Op.start demo_overrides,
   Op.wait]

/-- Whether a call is the pipeline-definition upsert. -/
def Op.isUpsert : Op → Bool
  | .upsert _ => true
  | _ => false

/-- Whether a call is an execution start. -/
def Op.isStart : Op → Bool
  | .start _ => true
  | _ => false

/-- Whether a call is an execution describe. -/
def Op.isDescribe : Op → Bool
  | .describe => true
  | _ => false

/-- Whether a call is an execution wait. -/
def Op.isWait : Op → Bool
  | .wait => true
  | _ => false

/-- Whether a call is an execution list_steps. -/
def Op.isListSteps : Op → Bool
  | .list_steps => true
  | _ => false

/-- Whether a call operates on a remote execution resource. -/
def Op.isExecCall : Op → Bool
  | .start _ => true
  | .describe => true
  | .wait => true
  | .list_steps => true
  | _ => false

/-- The notebook's execution of its call sequence: each call is issued in
order; the notebook wraps no call in any handler, so the first error ends
the run with that error and a later call is never reached.  The effect of
each call is an opaque environment, since every call is remote. -/
def runOps {ε : Type} (env : Op → Except ε Unit) : List Op → Except ε Unit
  | [] => Except.ok ()
  | o :: rest =>
    match env o with
    | Except.error e => Except.error e
    | Except.ok _ => runOps env rest

/-- The names of the pipeline's steps. -/
def stepNames (p : Pipeline) : List String := p.steps.map Step.name

/-- Modelled from the spec: the remote DAG scheduler is not code of this
repository; the spec describes the submitted definition as "a declarative
graph definition" whose steps the service runs respecting data
dependencies.  A schedule is an order on the pipeline's step names in which
every step comes after each step whose properties it references. -/
def respectsDeps (p : Pipeline) (sched : List String) : Prop :=
  sched.Perm (stepNames p) ∧
  ∀ s ∈ p.steps, ∀ d ∈ s.deps, sched.indexOf d < sched.indexOf s.name

instance (p : Pipeline) (sched : List String) :
    Decidable (respectsDeps p sched) := by
  unfold respectsDeps
  infer_instance

/-- A concrete bucket name, of the shape of a SageMaker default bucket. -/
def demo_bucket : String := "sagemaker-us-east-1-123456789012"

/-- A concrete execution role ARN. -/
def demo_role : String := "arn:aws:iam::123456789012:role/SageMakerExecutionRole"

/-- The schedule that runs the four steps in their pipeline listing order. -/
def sched_demo : List String :=
  [("CustomerChurnProcess"), ("CustomerChurnTrain"), ("CustomerChurnEval"),
   ("CustomerChurnAccuracyCond")]

/-- An environment in which the execution wait call fails and every other
call succeeds. -/
def envFailWait : Op → Except String Unit :=
  fun o => if Op.isWait o then Except.error ("ExecutionFailed") else Except.ok ()

/-- The notebook's run of a call list fails with error e exactly when some
call fails with e and every call before it succeeded: the notebook neither
recovers from, retries, nor translates a client-library error. -/
theorem runOps_error_iff {ε : Type} (env : Op → Except ε Unit)
    (ops : List Op) (e : ε) :
    runOps env ops = Except.error e ↔
      ∃ pre op post, ops = pre ++ op :: post ∧
        (∀ o ∈ pre, env o = Except.ok ()) ∧ env op = Except.error e := by
  induction ops with
  | nil =>
    constructor
    · intro h
      exact Except.noConfusion h
    · rintro ⟨pre, op, post, hsplit, -, -⟩
      rcases List.append_eq_nil.mp hsplit.symm with ⟨-, h2⟩
      exact (List.cons_ne_nil op post h2).elim
  | cons o rest ih =>
    constructor
    · intro h
      cases henv : env o with
      | error e0 =>
        have he : e0 = e := by
          simp only [runOps, henv] at h
          exact (Except.error.inj h)
        refine ⟨[], o, rest, rfl, ?_, ?_⟩
        · intro x hx
          exact absurd hx (List.not_mem_nil x)
        · rw [henv, he]
      | ok u =>
        have h2 : runOps env rest = Except.error e := by
          simpa only [runOps, henv] using h
        obtain ⟨pre, op, post, hsplit, hpre, hop⟩ := ih.mp h2
        refine ⟨o :: pre, op, post, by rw [hsplit, List.cons_append], ?_, hop⟩
        intro x hx
        rcases List.mem_cons.mp hx with rfl | hx2
        · cases u
          exact henv
        · exact hpre x hx2
    · rintro ⟨pre, op, post, hsplit, hpre, hop⟩
      cases pre with
      | nil =>
        obtain ⟨rfl, rfl⟩ : o = op ∧ rest = post := by
          simpa using hsplit
        simp only [runOps, hop]
      | cons p ps =>
        obtain ⟨rfl, hrest⟩ : o = p ∧ rest = ps ++ op :: post := by
          simpa using hsplit
        have hpo : env o = Except.ok () := hpre o (by simp)
        have hrec : runOps env rest = Except.error e :=
          ih.mpr ⟨ps, op, post, hrest, fun x hx => hpre x (by simp [hx]), hop⟩
        simpa only [runOps, hpo] using hrec

/-- C1: the conditional registration gate is a single declarative
greater-or-equal comparison object: its left operand is the JsonGet at JSON
path binary_classification_metrics.f1.value from the EvaluationReport
property file of the CustomerChurnEval step, its right operand is the
constant 0.8, the condition step carries exactly this one condition and the
register-model step as its only if-branch step.  The gate is inert
configuration data of type Condition; no comparison function over metric
values is declared in this development, mirroring that none is executed
locally by the notebook. -/
theorem c1_condition_gate :
    Step.conditions step_cond = [cond_register] ∧
    Condition.left cond_register =
      ⟨"CustomerChurnEval", "EvaluationReport",
       "binary_classification_metrics.f1.value"⟩ ∧
    Condition.right cond_register = (0.8 : ℚ) ∧
    Step.if_steps step_cond = [step_register] ∧
    (Step.if_steps step_cond).map Step.name = [("CustomerChurnRegisterModel")] :=
  ⟨rfl, rfl, rfl, rfl, rfl⟩

/-- C2: the submitted pipeline definition contains exactly four steps, in
the order CustomerChurnProcess, CustomerChurnTrain, CustomerChurnEval,
CustomerChurnAccuracyCond; the register step is not a fifth top-level step
but nested as the if-branch of the condition step. -/
theorem c2_four_steps (bucket : String) :
    (pipeline bucket).steps.map Step.name =
      [("CustomerChurnProcess"), ("CustomerChurnTrain"), ("CustomerChurnEval"),
       ("CustomerChurnAccuracyCond")] ∧
    (pipeline bucket).steps.length = 4 ∧
    Step.if_steps step_cond = [step_register] :=
  ⟨rfl, rfl, rfl⟩

/-- C3: the pipeline aggregates exactly six parameters, each carrying a
name, a type and a default value: ProcessingInstanceCount (integer, 1),
ProcessingInstanceType (string, "ml.m5.xlarge"), InputDataUrl (string, the
staged raw-data S3 URI), TrainingInstanceType (string, "ml.m5.xlarge"),
TrainingMaxDepth (string, "5"), ModelApprovalStatus (string,
"PendingManualApproval"). -/
theorem c3_parameters (bucket : String) :
    (pipeline bucket).parameters.map Parameter.name =
      [("ProcessingInstanceType"), ("ProcessingInstanceCount"),
       ("TrainingMaxDepth"), ("TrainingInstanceType"),
       ("ModelApprovalStatus"), ("InputDataUrl")] ∧
    (pipeline bucket).parameters.length = 6 ∧
    (⟨"ProcessingInstanceCount", ParamType.integer, SVal.int 1⟩ : Parameter)
      ∈ (pipeline bucket).parameters ∧
    (⟨"ProcessingInstanceType", ParamType.string, SVal.str ("ml.m5.xlarge")⟩ : Parameter)
      ∈ (pipeline bucket).parameters ∧
    (⟨"InputDataUrl", ParamType.string, SVal.str (raw_data_s3uri bucket)⟩ : Parameter)
      ∈ (pipeline bucket).parameters ∧
    (⟨"TrainingInstanceType", ParamType.string, SVal.str ("ml.m5.xlarge")⟩ : Parameter)
      ∈ (pipeline bucket).parameters ∧
    (⟨"TrainingMaxDepth", ParamType.string, SVal.str ("5")⟩ : Parameter)
      ∈ (pipeline bucket).parameters ∧
    (⟨"ModelApprovalStatus", ParamType.string, SVal.str ("PendingManualApproval")⟩ : Parameter)
      ∈ (pipeline bucket).parameters := by
  refine ⟨rfl, rfl, ?_, ?_, ?_, ?_, ?_, ?_⟩ <;>
    simp [pipeline, processing_instance_count, processing_instance_type,
      input_data, training_instance_type, training_max_depth,
      model_approval_status]

/-- C9: caching is configured only on the preprocessing step, enabled with
expiry "T2H"; the training, evaluation and condition steps carry no cache
configuration. -/
theorem c9_cache_config (bucket : String) :
    (pipeline bucket).steps.map Step.cache_config =
      [some ⟨true, "T2H"⟩, none, none, none] :=
  rfl

/-- C10: the register step's approval status is bound to the
ModelApprovalStatus parameter, whose declared default is
"PendingManualApproval"; under the spec-modelled override resolution, an
execution started with no overrides resolves it to "PendingManualApproval",
and the second demonstrated execution's override dictionary resolves it to
"Approved". -/
theorem c10_approval_status (bucket : String) :
    Step.approval_status step_register = some (SVal.param ("ModelApprovalStatus")) ∧
    Parameter.default_value model_approval_status = SVal.str ("PendingManualApproval") ∧
    resolveParam (pipeline bucket) [] ("ModelApprovalStatus") =
      some (SVal.str ("PendingManualApproval")) ∧
    demo_overrides.lookup ("ModelApprovalStatus") = some (SVal.str ("Approved")) ∧
    resolveParam (pipeline bucket) demo_overrides ("ModelApprovalStatus") =
      some (SVal.str ("Approved")) :=
  ⟨rfl, rfl, rfl, rfl, rfl⟩

/-- C4: the condition step's else branch is empty, so the notebook installs
no local fallback for a missed evaluation-metric threshold; and when the
client library's wait call on an execution raises an error while every
other call succeeds, the notebook's run ends with exactly that error: no
recovery, retry or translation intervenes. -/
theorem c4_threshold_failure_propagates (bucket role_arn : String) {ε : Type}
    (env : Op → Except ε Unit) (e : ε)
    (hok : ∀ o, Op.isWait o = false → env o = Except.ok ())
    (hw : env Op.wait = Except.error e) :
    Step.else_steps step_cond = [] ∧
    runOps env (script bucket role_arn) = Except.error e := by
  refine ⟨rfl, ?_⟩
  have h1 : env (Op.s3_upload bucket raw_data_key) = Except.ok () := hok _ rfl
  have h2 : env (Op.upsert role_arn) = Except.ok () := hok _ rfl
  have h3 : env (Op.start []) = Except.ok () := hok _ rfl
  have h4 : env Op.describe = Except.ok () := hok _ rfl
  simp [script, runOps, h1, h2, h3, h4, hw]

/-- Witness for C4 at a concrete bucket, role and environment. -/
theorem c4_threshold_failure_propagates_witness :
    Step.else_steps step_cond = [] ∧
    runOps envFailWait (script demo_bucket demo_role) =
      Except.error ("ExecutionFailed") :=
  c4_threshold_failure_propagates demo_bucket demo_role envFailWait
    ("ExecutionFailed")
    (fun o ho => by simp [envFailWait, ho])
    (by simp [envFailWait, Op.isWait])

/-- C5: the notebook's run of its call sequence fails with an error e
exactly when one of its calls fails with e and every call before it
succeeded: every client-library error propagates unchanged, and no
operation has a recovery, retry or error-translation path. -/
theorem c5_errors_propagate_unchanged (bucket role_arn : String) {ε : Type}
    (env : Op → Except ε Unit) (e : ε) :
    runOps env (script bucket role_arn) = Except.error e ↔
      ∃ pre op post, script bucket role_arn = pre ++ op :: post ∧
        (∀ o ∈ pre, env o = Except.ok ()) ∧ env op = Except.error e :=
  runOps_error_iff env (script bucket role_arn) e

/-- C6: the call sequence upserts the pipeline definition at position 1
(right after the data upload, which is the only call before it and is not
an execution call), and the first start, describe, wait and list_steps
calls come at positions 2, 3, 4 and 5: the definition is submitted before
any execution-resource call, and the execution calls are issued in the
order start, describe, wait, list_steps. -/
theorem c6_upsert_before_execution (bucket role_arn : String) :
    (∀ op ∈ (script bucket role_arn).takeWhile (fun o => !(Op.isUpsert o)),
      Op.isExecCall op = false) ∧
    (script bucket role_arn).findIdx Op.isUpsert = 1 ∧
    (script bucket role_arn).findIdx Op.isStart = 2 ∧
    (script bucket role_arn).findIdx Op.isDescribe = 3 ∧
    (script bucket role_arn).findIdx Op.isWait = 4 ∧
    (script bucket role_arn).findIdx Op.isListSteps = 5 := by
  refine ⟨?_, rfl, rfl, rfl, rfl, rfl⟩
  intro op hop
  simp only [script, List.takeWhile] at hop
  simp only [Op.isUpsert, Bool.not_false, Bool.not_true, List.mem_cons,
    List.not_mem_nil, or_false] at hop
  subst hop
  rfl

/-- C7: the demonstrated override dictionary names ProcessingInstanceType,
ModelApprovalStatus and TrainingMaxDepth; under the spec-modelled
resolution, a pipeline parameter named in it resolves to the override value
and every pipeline parameter not named in it keeps its declared default. -/
theorem c7_override_frame (bucket : String) (q : Parameter)
    (hq : q ∈ (pipeline bucket).parameters) :
    (demo_overrides.lookup q.name = none →
      resolveParam (pipeline bucket) demo_overrides q.name =
        some q.default_value) ∧
    (∀ v, demo_overrides.lookup q.name = some v →
      resolveParam (pipeline bucket) demo_overrides q.name = some v) := by
  have hmem : q = processing_instance_type ∨ q = processing_instance_count ∨
      q = training_max_depth ∨ q = training_instance_type ∨
      q = model_approval_status ∨ q = input_data bucket := by
    simpa [pipeline] using hq
  rcases hmem with rfl | rfl | rfl | rfl | rfl | rfl
  · refine ⟨fun h => absurd h (by decide), fun v hv => ?_⟩
    rw [(by decide :
      demo_overrides.lookup (Parameter.name processing_instance_type) =
        some (SVal.str ("ml.c5.xlarge")))] at hv
    cases hv
    rfl
  · exact ⟨fun _ => rfl, fun v hv => by
      rw [(by decide :
        demo_overrides.lookup (Parameter.name processing_instance_count) =
          none)] at hv
      exact Option.noConfusion hv⟩
  · refine ⟨fun h => absurd h (by decide), fun v hv => ?_⟩
    rw [(by decide :
      demo_overrides.lookup (Parameter.name training_max_depth) =
        some (SVal.str ("6")))] at hv
    cases hv
    rfl
  · exact ⟨fun _ => rfl, fun v hv => by
      rw [(by decide :
        demo_overrides.lookup (Parameter.name training_instance_type) =
          none)] at hv
      exact Option.noConfusion hv⟩
  · refine ⟨fun h => absurd h (by decide), fun v hv => ?_⟩
    rw [(by decide :
      demo_overrides.lookup (Parameter.name model_approval_status) =
        some (SVal.str ("Approved")))] at hv
    cases hv
    rfl
  · exact ⟨fun _ => rfl, fun v hv => by
      rw [(rfl :
        demo_overrides.lookup (Parameter.name (input_data bucket)) =
          none)] at hv
      exact Option.noConfusion hv⟩

/-- Witness for C7 at a concrete bucket and the TrainingInstanceType
parameter, which the demonstrated override dictionary does not name and
which therefore keeps its declared default. -/
theorem c7_override_frame_witness :
    demo_overrides.lookup (Parameter.name training_instance_type) = none ∧
    resolveParam (pipeline demo_bucket) demo_overrides
        (Parameter.name training_instance_type) =
      some (Parameter.default_value training_instance_type) :=
  ⟨by decide,
   (c7_override_frame demo_bucket training_instance_type (by decide)).1
     (by decide)⟩

/-- C8: the training step's train and validation channels reference the
processing step's outputs of the same names, the evaluation step's inputs
reference the training step's model artifacts and the processing step's
test output, the condition step's gate reads from the evaluation step; so
in every schedule of an execution that respects the referenced-step
dependencies, processing precedes training, training precedes evaluation,
and evaluation precedes the condition step. -/
theorem c8_dependency_dag (bucket : String) (sched : List String)
    (h : respectsDeps (pipeline bucket) sched) :
    (∀ pr ∈ Step.trainingInputs (step_train bucket),
      (pr.2).s3_data =
        SVal.prop (Step.name step_process) (PropPath.processingOutput pr.1)) ∧
    (Step.processingInputs step_eval).map ProcessingInput.source =
      [SVal.prop ("CustomerChurnTrain") PropPath.modelArtifacts,
       SVal.prop ("CustomerChurnProcess") (PropPath.processingOutput ("test"))] ∧
    (Step.conditions step_cond).map Condition.stepRefs =
      [[("CustomerChurnEval")]] ∧
    sched.indexOf ("CustomerChurnProcess") < sched.indexOf ("CustomerChurnTrain") ∧
    sched.indexOf ("CustomerChurnTrain") < sched.indexOf ("CustomerChurnEval") ∧
    sched.indexOf ("CustomerChurnEval") < sched.indexOf ("CustomerChurnAccuracyCond") := by
  obtain ⟨-, hdeps⟩ := h
  refine ⟨?_, rfl, rfl, ?_, ?_, ?_⟩
  · intro pr hpr
    have hcases : pr = (("train"),
        (⟨SVal.prop ("CustomerChurnProcess") (PropPath.processingOutput ("train")),
          "text/csv"⟩ : TrainingInput)) ∨
        pr = (("validation"),
        (⟨SVal.prop ("CustomerChurnProcess") (PropPath.processingOutput ("validation")),
          "text/csv"⟩ : TrainingInput)) := by
      simpa [Step.trainingInputs, step_train] using hpr
    rcases hcases with rfl | rfl <;> rfl
  · exact hdeps (step_train bucket) (by simp [pipeline])
      ("CustomerChurnProcess")
      (by simp [Step.deps, step_train, SVal.stepRefs])
  · exact hdeps step_eval (by simp [pipeline])
      ("CustomerChurnTrain")
      (by simp [Step.deps, step_eval, SVal.stepRefs])
  · exact hdeps step_cond (by simp [pipeline])
      ("CustomerChurnEval")
      (by simp [Step.deps, step_cond, cond_register, Condition.stepRefs])

/-- Witness for C8 at a concrete bucket and the schedule that runs the four
steps in their pipeline listing order, which respects the dependencies. -/
theorem c8_dependency_dag_witness :
    respectsDeps (pipeline demo_bucket) sched_demo ∧
    sched_demo.indexOf ("CustomerChurnProcess") <
      sched_demo.indexOf ("CustomerChurnTrain") :=
  ⟨by decide, (c8_dependency_dag demo_bucket sched_demo (by decide)).2.2.2.1⟩

end ChurnPipeline
